import Mathlib

/-!
Verification of the `impers` asynchronous transfer scheduler
(`src/core/multi.ts`), the WebSocket session (`src/websocket/websocket.ts`)
and the write-callback bridge (`wrapWriteCallback` in `src/core/multi.ts`),
as a shallow embedding in Lean.

Machine integers that appear (status codes, byte values, lengths) are
modelled as `Nat`/`Int`; JavaScript `Map`s are modelled as association
lists with JS `Map` semantics (`set` replaces in place, `delete` removes
the unique entry, iteration follows insertion order); `Buffer`s are
modelled as lists of byte values; promise resolution is modelled by an
explicit event log of `(futureId, resolution)` pairs.
-/

namespace Impers

/-! ### libcurl status codes and flags

The repository's `src/ffi/constants.ts` is not part of the provided tree.
Modelled from the spec: §6.1 fixes that the status-code space is a flat
integer enumeration with 0 meaning success; the individual names used by
`multi.ts`/`websocket.ts` are given their standard libcurl values. -/

def CURLM_OK : Int := 0
def CURLM_CALL_MULTI_PERFORM : Int := -1
/-- Source: `CURLM_ADDED_ALREADY`: the native engine forbids registering the same
handle twice (spec §3) and reports it with this status. -/
def CURLM_ADDED_ALREADY : Int := 7
def CURLE_OK : Nat := 0
def CURLE_AGAIN : Nat := 81
def CURLWS_TEXT : Nat := 1
def CURLWS_BINARY : Nat := 2
def CURLWS_CONT : Nat := 4
def CURLWS_CLOSE : Nat := 8
def CURLWS_PING : Nat := 16
def CURLWS_PONG : Nat := 32

/-! ### Association lists with JavaScript `Map` semantics -/

/-- Source: `Map.get`: first entry with the given key. -/
def lookupA {α : Type} : List (Nat × α) → Nat → Option α
  | [], _ => none
  | (k', v) :: rest, k => if k' = k then some v else lookupA rest k

/-- Source: `Map.delete`: remove the first entry with the given key. -/
def eraseA {α : Type} : List (Nat × α) → Nat → List (Nat × α)
  | [], _ => []
  | (k', v) :: rest, k => if k' = k then rest else (k', v) :: eraseA rest k

/-- Source: `Map.set`: replace in place if the key is present, else append
(JS `Map` keeps insertion order). -/
def setA {α : Type} : List (Nat × α) → Nat → α → List (Nat × α)
  | [], k, v => [(k, v)]
  | (k', v') :: rest, k, v =>
    if k' = k then (k, v) :: rest else (k', v') :: setA rest k v

theorem lookupA_mem {α : Type} {l : List (Nat × α)} {k : Nat} {v : α}
    (h : lookupA l k = some v) : (k, v) ∈ l := by
  induction l with
  | nil => simp [lookupA] at h
  | cons hd tl ih =>
    obtain ⟨k', v'⟩ := hd
    by_cases hk : k' = k
    · subst hk
      simp [lookupA] at h
      subst h
      exact List.mem_cons_self _ _
    · simp [lookupA, hk] at h
      exact List.mem_cons_of_mem _ (ih h)

theorem lookupA_eq_none_iff {α : Type} {l : List (Nat × α)} {k : Nat} :
    lookupA l k = none ↔ k ∉ l.map Prod.fst := by
  induction l with
  | nil => simp [lookupA]
  | cons hd tl ih =>
    obtain ⟨k', v'⟩ := hd
    by_cases hk : k' = k
    · subst hk
      simp [lookupA]
    · simp [lookupA, hk, ih]
      intro h
      exact fun he => hk he.symm

theorem eraseA_sublist {α : Type} (l : List (Nat × α)) (k : Nat) :
    (eraseA l k).Sublist l := by
  induction l with
  | nil => simp [eraseA]
  | cons hd tl ih =>
    obtain ⟨k', v'⟩ := hd
    by_cases hk : k' = k
    · simp only [eraseA, hk, if_pos]
      exact List.sublist_cons_self _ _
    · simpa [eraseA, hk] using List.Sublist.cons₂ (k', v') ih

theorem keys_eraseA_not_mem {α : Type} {l : List (Nat × α)} {k : Nat}
    (h : (l.map Prod.fst).Nodup) : k ∉ (eraseA l k).map Prod.fst := by
  induction l with
  | nil => simp [eraseA]
  | cons hd tl ih =>
    obtain ⟨k', v'⟩ := hd
    simp only [List.map_cons, List.nodup_cons] at h
    by_cases hk : k' = k
    · subst hk
      simpa [eraseA] using h.1
    · simp only [eraseA, if_neg hk, List.map_cons, List.mem_cons]
      rintro (rfl | hm)
      · exact hk rfl
      · exact ih h.2 hm

theorem lookupA_eraseA_self {α : Type} {l : List (Nat × α)} {k : Nat}
    (h : (l.map Prod.fst).Nodup) : lookupA (eraseA l k) k = none :=
  lookupA_eq_none_iff.mpr (keys_eraseA_not_mem h)

theorem setA_of_not_mem {α : Type} {l : List (Nat × α)} {k : Nat} (v : α)
    (h : k ∉ l.map Prod.fst) : setA l k v = l ++ [(k, v)] := by
  induction l with
  | nil => simp [setA]
  | cons hd tl ih =>
    obtain ⟨k', v'⟩ := hd
    simp only [List.map_cons, List.mem_cons] at h
    push_neg at h
    have hne : ¬k' = k := fun he => h.1 he.symm
    simp [setA, hne, ih h.2]

theorem keys_setA {α : Type} (l : List (Nat × α)) (k : Nat) (v : α) :
    (setA l k v).map Prod.fst = l.map Prod.fst ∨
    (setA l k v).map Prod.fst = l.map Prod.fst ++ [k] := by
  induction l with
  | nil => simp [setA]
  | cons hd tl ih =>
    obtain ⟨k', v'⟩ := hd
    by_cases hk : k' = k
    · subst hk
      simp [setA]
    · rcases ih with ih | ih <;> simp [setA, hk, ih]

theorem keys_setA_nodup {α : Type} {l : List (Nat × α)} {k : Nat} {v : α}
    (h : (l.map Prod.fst).Nodup) : ((setA l k v).map Prod.fst).Nodup := by
  induction l with
  | nil => simp [setA]
  | cons hd tl ih =>
    obtain ⟨k', v'⟩ := hd
    simp only [List.map_cons, List.nodup_cons] at h
    by_cases hk : k' = k
    · subst hk
      simpa [setA] using h
    · simp only [setA, if_neg hk, List.map_cons, List.nodup_cons]
      refine ⟨?_, ih h.2⟩
      rcases keys_setA tl k v with he | he <;> rw [he]
      · exact h.1
      · simp only [List.mem_append, List.mem_singleton]
        rintro (hm | rfl)
        · exact h.1 hm
        · exact hk rfl

/-! ### Multi-transfer scheduler (`CurlMulti`, src/core/multi.ts)

Handle identity (`getHandleAddress`) is an address-stable key; it is
modelled directly as a `Nat`. Each `Curl` object is likewise identified
by a `Nat`. Futures are given fresh numeric ids on submission and their
resolutions are recorded in an append-only event log. -/

/-- A `PendingTransfer` record of `multi.ts` (curl object, easy handle,
handle address used as the lookup key, and the future it resolves). -/
structure PendingTransfer where
  curl : Nat
  handle : Nat
  handleAddr : Nat
  fid : Nat
deriving DecidableEq, Repr

/-- The distinguishable error values `multi.ts` rejects or throws with. -/
inductive MultiError where
  /-- Source: `throw new Error("CurlMulti has been closed")` in `perform`. -/
  | alreadyClosed
  /-- Source: `throw new Error("CurlMulti handle is null")` in `perform`. -/
  | handleNull
  /-- Source: `throw new Error("Curl handle is null")` in `perform`. -/
  | curlHandleNull
  /-- Source: `reject(new Error("curl_multi_add_handle failed: ..."))`. -/
  | addHandleFailed (code : Int)
  /-- Source: `new Error("curl_multi_perform failed: ...")`, broadcast. -/
  | performFailed (code : Int)
  /-- Source: `new Error("curl_multi_poll failed: ...")`, broadcast. -/
  | pollFailed (code : Int)
  /-- Source: `new Error("Transfer failed with code ...")` in `checkCompleted`. -/
  | transferFailed (code : Nat)
  /-- Source: `new Error("Transfer cancelled")` in `cancel`. -/
  | cancelled
  /-- Source: `new Error("CurlMulti closed")` in `close`. -/
  | multiClosed
deriving DecidableEq, Repr

/-- One resolution of a pending future: `resolve` with a `TransferResult`
code, or `reject` with an error. -/
inductive Resolution where
  | success (code : Nat)
  | failure (e : MultiError)
deriving DecidableEq, Repr

/-- State of one `CurlMulti` instance.  `hasHandle` is whether the native
multi context is still held (`this.handle !== null`); `registered` is the
set of easy handles currently added to that native context (state of the
native engine, which forbids double registration — spec §3/§6.1);
`events` is the log of future resolutions. -/
structure CurlMulti where
  hasHandle : Bool
  registered : List Nat
  pendingTransfers : List (Nat × PendingTransfer)
  curlToAddr : List (Nat × Nat)
  polling : Bool
  closed : Bool
  nextFid : Nat
  events : List (Nat × Resolution)
deriving DecidableEq, Repr

/-- A freshly constructed `CurlMulti` (constructor succeeded). -/
def mkCurlMulti : CurlMulti :=
  { hasHandle := true, registered := [], pendingTransfers := [],
    curlToAddr := [], polling := false, closed := false,
    nextFid := 0, events := [] }

/-- Native `curl_multi_add_handle`. Modelled from the spec: §3 "the native
engine forbids registering the same handle twice" and §6.1
`register(context, handle) -> statusCode`; an already-registered handle
yields `CURLM_ADDED_ALREADY`, otherwise the handle is added and
`CURLM_OK` returned. -/
def curl_multi_add_handle (registered : List Nat) (h : Nat) :
    Int × List Nat :=
  if h ∈ registered then (CURLM_ADDED_ALREADY, registered)
  else (CURLM_OK, h :: registered)

/-- Source: `CurlMulti.perform(curl)`: admission of one transfer.  Returns the
fresh future id on success; errors of the `async` function and rejections
of the returned promise are both surfaced as `Except.error`.  `easyHandle`
is `curl.getHandle()` (`none` when the easy handle is null). -/
def perform (st : CurlMulti) (curl : Nat) (easyHandle : Option Nat) :
    Except MultiError Nat × CurlMulti :=
  if st.closed then (.error .alreadyClosed, st)
  else if st.hasHandle = false then (.error .handleNull, st)
  else
    match easyHandle with
    | none => (.error .curlHandleNull, st)
    | some h =>
      -- getHandleAddress: the handle's address, our handle value itself
      let handleAddr := h
      let add := curl_multi_add_handle st.registered h
      if add.1 ≠ CURLM_OK then (.error (.addHandleFailed add.1), st)
      else
        let tr : PendingTransfer :=
          { curl := curl, handle := h, handleAddr := handleAddr,
            fid := st.nextFid }
        (.ok st.nextFid,
         { st with
             registered := add.2,
             pendingTransfers := setA st.pendingTransfers handleAddr tr,
             curlToAddr := setA st.curlToAddr curl handleAddr,
             nextFid := st.nextFid + 1,
             polling := true })

/-- One `CURLMSG_DONE` message handled inside `checkCompleted`:
look up the pending record by handle address, remove the handle from the
native context, delete the record, and resolve or reject its future. -/
def resolveOne (st : CurlMulti) (addr result : Nat) : CurlMulti :=
  match lookupA st.pendingTransfers addr with
  | none => st
  | some p =>
    { st with
        registered := st.registered.erase p.handle,
        pendingTransfers := eraseA st.pendingTransfers p.handleAddr,
        curlToAddr := eraseA st.curlToAddr p.curl,
        events := st.events ++
          [(p.fid,
            if result = CURLE_OK then Resolution.success result
            else Resolution.failure (.transferFailed result))] }

/-- Source: `CurlMulti.checkCompleted`: drain the completion queue.  `msgs` is the
sequence of `CURLMSG_DONE` messages `curl_multi_info_read` yields this
iteration, as `(easy-handle address, result code)` pairs. -/
def checkCompleted (st : CurlMulti) (msgs : List (Nat × Nat)) : CurlMulti :=
  if st.hasHandle = false then st
  else msgs.foldl (fun s m => resolveOne s m.1 m.2) st

/-- Source: `CurlMulti.failAllPending(error)`: remove every pending handle from
the native context and reject every pending future with `error`. -/
def failAllPending (st : CurlMulti) (e : MultiError) : CurlMulti :=
  { st with
      registered :=
        if st.hasHandle then
          st.pendingTransfers.foldl (fun r p => r.erase p.2.handle)
            st.registered
        else st.registered,
      events := st.events ++
        st.pendingTransfers.map (fun p => (p.2.fid, Resolution.failure e)),
      pendingTransfers := [],
      curlToAddr := [] }

/-- What the native engine reports during one poll-loop iteration:
the `curl_multi_perform` status and running count, the `CURLMSG_DONE`
messages drained by `curl_multi_info_read`, and the `curl_multi_poll`
status. -/
structure PollOracle where
  performCode : Int
  runningHandles : Nat
  completions : List (Nat × Nat)
  pollCode : Int
deriving DecidableEq, Repr

/-- One iteration of `CurlMulti.pollLoop` (the body between two
`setImmediate` schedulings). -/
def pollIteration (st : CurlMulti) (o : PollOracle) : CurlMulti :=
  if st.closed ∨ st.hasHandle = false ∨ st.pendingTransfers.isEmpty then
    { st with polling := false }
  else if o.performCode ≠ CURLM_OK ∧
      o.performCode ≠ CURLM_CALL_MULTI_PERFORM then
    { failAllPending st (.performFailed o.performCode) with
        polling := false }
  else
    let st1 := checkCompleted st o.completions
    if o.runningHandles > 0 ∨ st1.pendingTransfers.isEmpty = false then
      if o.pollCode ≠ CURLM_OK then
        { failAllPending st1 (.pollFailed o.pollCode) with
            polling := false }
      else st1
    else { st1 with polling := false }

/-- Source: `CurlMulti.cancel(curl)`. -/
def cancel (st : CurlMulti) (curl : Nat) : Bool × CurlMulti :=
  if st.hasHandle = false then (false, st)
  else
    match lookupA st.curlToAddr curl with
    | none => (false, st)
    | some handleAddr =>
      match lookupA st.pendingTransfers handleAddr with
      | none => (false, st)
      | some pending =>
        (true,
         { st with
             registered := st.registered.erase pending.handle,
             pendingTransfers := eraseA st.pendingTransfers handleAddr,
             curlToAddr := eraseA st.curlToAddr curl,
             events := st.events ++
               [(pending.fid, Resolution.failure .cancelled)] })

/-- Source: `CurlMulti.close()`: idempotent shutdown — fail all pending work with
the `CurlMulti closed` error and release the native multi context. -/
def close (st : CurlMulti) : CurlMulti :=
  if st.closed then st
  else
    let st1 := failAllPending { st with closed := true } .multiClosed
    { st1 with hasHandle := false }

/-- The operations that can hit a scheduler instance, with the native
engine's nondeterminism supplied as oracle data. -/
inductive MOp where
  | submit (curl : Nat) (easyHandle : Option Nat)
  | poll (o : PollOracle)
  | cancel (curl : Nat)
  | close
deriving Repr

/-- Apply one operation to the scheduler state (return values dropped). -/
def applyOp (st : CurlMulti) : MOp → CurlMulti
  | .submit c h => (perform st c h).2
  | .poll o => pollIteration st o
  | .cancel c => (cancel st c).2
  | .close => close st

/-- Run a sequence of operations from a state. -/
def run (st : CurlMulti) (ops : List MOp) : CurlMulti :=
  ops.foldl applyOp st

/-- Future ids of the records currently pending. -/
def pendingFids (st : CurlMulti) : List Nat :=
  st.pendingTransfers.map (fun p => p.2.fid)

/-- Future ids that have already been resolved (in log order). -/
def eventFids (st : CurlMulti) : List Nat :=
  st.events.map Prod.fst

/-- The scheduler's state invariant: resolved future ids are pairwise
distinct, pending records carry distinct, still-unresolved, sub-`nextFid`
future ids, map keys are unique, every pending record's key is its handle
address and handle, and every pending handle is registered with the
native context. -/
def GoodCore (ev : List (Nat × Resolution))
    (pending : List (Nat × PendingTransfer)) (c2a : List (Nat × Nat))
    (reg : List Nat) (nf : Nat) : Prop :=
  (ev.map Prod.fst).Nodup ∧
  (pending.map (fun p => p.2.fid)).Nodup ∧
  (∀ f ∈ pending.map (fun p => p.2.fid), f ∉ ev.map Prod.fst) ∧
  (∀ f ∈ pending.map (fun p => p.2.fid), f < nf) ∧
  (∀ f ∈ ev.map Prod.fst, f < nf) ∧
  (pending.map Prod.fst).Nodup ∧
  (c2a.map Prod.fst).Nodup ∧
  (∀ pr ∈ pending, pr.2.handleAddr = pr.1 ∧ pr.2.handle = pr.1) ∧
  (∀ k ∈ pending.map Prod.fst, k ∈ reg)

/-- The scheduler invariant, stated on the fields of the state. -/
def Good (st : CurlMulti) : Prop :=
  GoodCore st.events st.pendingTransfers st.curlToAddr st.registered
    st.nextFid

instance (ev : List (Nat × Resolution))
    (pending : List (Nat × PendingTransfer)) (c2a : List (Nat × Nat))
    (reg : List Nat) (nf : Nat) :
    Decidable (GoodCore ev pending c2a reg nf) := by
  unfold GoodCore
  exact inferInstance

instance (st : CurlMulti) : Decidable (Good st) := by
  unfold Good
  exact inferInstance

theorem GoodCore_submit {ev : List (Nat × Resolution)}
    {pending : List (Nat × PendingTransfer)} {c2a : List (Nat × Nat)}
    {reg : List Nat} {nf : Nat} (c hd : Nat)
    (h : GoodCore ev pending c2a reg nf) (hreg : hd ∉ reg) :
    GoodCore ev (setA pending hd ⟨c, hd, hd, nf⟩) (setA c2a c hd)
      (hd :: reg) (nf + 1) := by
  obtain ⟨h1, h2, h3, h4, h5, h6, h7, h8, h9⟩ := h
  have hkey : hd ∉ pending.map Prod.fst := fun hm => hreg (h9 hd hm)
  rw [GoodCore, setA_of_not_mem _ hkey]
  refine ⟨h1, ?_, ?_, ?_, ?_, ?_, keys_setA_nodup h7, ?_, ?_⟩
  · rw [List.map_append]
    refine h2.append (by simp) ?_
    intro a ha hb
    simp only [List.map_cons, List.map_nil, List.mem_singleton] at hb
    subst hb
    exact absurd (h4 a ha) (lt_irrefl _)
  · intro f hf
    rw [List.map_append] at hf
    rcases List.mem_append.mp hf with hf | hf
    · exact h3 f hf
    · simp only [List.map_cons, List.map_nil, List.mem_singleton] at hf
      subst hf
      intro hmem
      exact absurd (h5 _ hmem) (lt_irrefl _)
  · intro f hf
    rw [List.map_append] at hf
    rcases List.mem_append.mp hf with hf | hf
    · exact Nat.lt_succ_of_lt (h4 f hf)
    · simp only [List.map_cons, List.map_nil, List.mem_singleton] at hf
      subst hf
      exact Nat.lt_succ_self _
  · intro f hf
    exact Nat.lt_succ_of_lt (h5 f hf)
  · rw [List.map_append]
    refine h6.append (by simp) ?_
    intro a ha hb
    simp only [List.map_cons, List.map_nil, List.mem_singleton] at hb
    subst hb
    exact hkey ha
  · intro pr hpr
    rcases List.mem_append.mp hpr with hpr | hpr
    · exact h8 pr hpr
    · simp only [List.mem_singleton] at hpr
      subst hpr
      exact ⟨rfl, rfl⟩
  · intro k hk
    rw [List.map_append] at hk
    rcases List.mem_append.mp hk with hk | hk
    · exact List.mem_cons_of_mem _ (h9 k hk)
    · simp only [List.map_cons, List.map_nil, List.mem_singleton] at hk
      subst hk
      exact List.mem_cons_self _ _

theorem Good_perform (st : CurlMulti) (c : Nat) (eh : Option Nat)
    (h : Good st) : Good (perform st c eh).2 := by
  unfold perform
  by_cases hc : st.closed
  · simp only [hc, if_true]
    exact h
  · by_cases hh : st.hasHandle = false
    · simp only [hc, hh, if_false, if_true]
      exact h
    · cases eh with
      | none =>
        simp only [hc, hh, if_false]
        exact h
      | some hd =>
        by_cases hreg : hd ∈ st.registered
        · simp only [hc, hh, curl_multi_add_handle, hreg, if_true,
            if_false, CURLM_ADDED_ALREADY, CURLM_OK]
          norm_num
          exact h
        · simp only [hc, hh, curl_multi_add_handle, hreg, if_true,
            if_false, CURLM_OK]
          norm_num
          exact GoodCore_submit c hd h hreg

theorem GoodCore_remove {ev : List (Nat × Resolution)}
    {pending : List (Nat × PendingTransfer)} {c2a : List (Nat × Nat)}
    {reg : List Nat} {nf : Nat} (addr ck : Nat) (p : PendingTransfer)
    (res : Resolution) (h : GoodCore ev pending c2a reg nf)
    (hl : lookupA pending addr = some p) :
    GoodCore (ev ++ [(p.fid, res)]) (eraseA pending p.handleAddr)
      (eraseA c2a ck) (reg.erase p.handle) nf := by
  obtain ⟨h1, h2, h3, h4, h5, h6, h7, h8, h9⟩ := h
  have hmem : (addr, p) ∈ pending := lookupA_mem hl
  obtain ⟨hpa0, hph0⟩ := h8 _ hmem
  have hpa : p.handleAddr = addr := hpa0
  have hph : p.handle = addr := hph0
  have hfid : p.fid ∈ pending.map (fun q => q.2.fid) :=
    List.mem_map_of_mem _ hmem
  have hsub := eraseA_sublist pending p.handleAddr
  have hsubc := eraseA_sublist c2a ck
  refine ⟨?_, ?_, ?_, ?_, ?_, ?_, ?_, ?_, ?_⟩
  · rw [List.map_append]
    refine h1.append (by simp) ?_
    intro a ha hb
    simp only [List.map_cons, List.map_nil, List.mem_singleton] at hb
    subst hb
    exact h3 _ hfid ha
  · exact List.Nodup.sublist (hsub.map _) h2
  · intro f hf
    rw [List.map_append, List.mem_append]
    have hfp : f ∈ pending.map (fun q => q.2.fid) :=
      (hsub.map _).subset hf
    rintro (hev | hone)
    · exact h3 f hfp hev
    · simp only [List.map_cons, List.map_nil, List.mem_singleton] at hone
      subst hone
      obtain ⟨e, he, hef⟩ := List.mem_map.mp hf
      have : e = (addr, p) := by
        refine List.inj_on_of_nodup_map h2 (hsub.subset he) hmem ?_
        simpa using hef
      subst this
      have : addr ∈ (eraseA pending p.handleAddr).map Prod.fst :=
        List.mem_map_of_mem _ he
      rw [hpa] at this
      exact keys_eraseA_not_mem h6 this
  · intro f hf
    exact h4 f ((hsub.map _).subset hf)
  · intro f hf
    rw [List.map_append] at hf
    rcases List.mem_append.mp hf with hf | hf
    · exact h5 f hf
    · simp only [List.map_cons, List.map_nil, List.mem_singleton] at hf
      subst hf
      exact h4 _ hfid
  · exact List.Nodup.sublist (hsub.map _) h6
  · exact List.Nodup.sublist (hsubc.map _) h7
  · intro pr hpr
    exact h8 pr (hsub.subset hpr)
  · intro k hk
    have hkp : k ∈ pending.map Prod.fst := (hsub.map _).subset hk
    have hkne : k ≠ p.handle := by
      intro he
      rw [hph] at he
      subst he
      rw [hpa] at hk
      exact keys_eraseA_not_mem h6 hk
    exact (List.mem_erase_of_ne hkne).mpr (h9 k hkp)

theorem Good_resolveOne (st : CurlMulti) (addr r : Nat) (h : Good st) :
    Good (resolveOne st addr r) := by
  unfold resolveOne
  cases hl : lookupA st.pendingTransfers addr with
  | none => exact h
  | some p => exact GoodCore_remove addr p.curl p _ h hl

theorem Good_foldl_resolve (msgs : List (Nat × Nat)) (st : CurlMulti)
    (h : Good st) :
    Good (msgs.foldl (fun s m => resolveOne s m.1 m.2) st) := by
  induction msgs generalizing st with
  | nil => exact h
  | cons m rest ih =>
    simp only [List.foldl_cons]
    exact ih _ (Good_resolveOne st m.1 m.2 h)

theorem Good_checkCompleted (st : CurlMulti) (msgs : List (Nat × Nat))
    (h : Good st) : Good (checkCompleted st msgs) := by
  unfold checkCompleted
  by_cases hh : st.hasHandle = false
  · simp only [hh, if_true]
    exact h
  · simp only [hh, if_false]
    exact Good_foldl_resolve msgs st h

theorem Good_failAllPending (st : CurlMulti) (e : MultiError)
    (h : Good st) : Good (failAllPending st e) := by
  obtain ⟨h1, h2, h3, h4, h5, h6, h7, h8, h9⟩ := h
  refine ⟨?_, by simp [failAllPending], by simp [failAllPending],
    by simp [failAllPending], ?_, by simp [failAllPending],
    by simp [failAllPending], by simp [failAllPending],
    by simp [failAllPending]⟩
  · show (List.map Prod.fst (st.events ++
      st.pendingTransfers.map (fun p => (p.2.fid, Resolution.failure e)))
      ).Nodup
    rw [List.map_append, List.map_map]
    refine h1.append ?_ ?_
    · simpa [Function.comp] using h2
    · intro a ha hb
      obtain ⟨pr, hpr, rfl⟩ := List.mem_map.mp hb
      exact h3 _ (List.mem_map_of_mem _ hpr) ha
  · show ∀ f ∈ List.map Prod.fst (st.events ++
      st.pendingTransfers.map (fun p => (p.2.fid, Resolution.failure e))),
      f < st.nextFid
    intro f hf
    rw [List.map_append] at hf
    rcases List.mem_append.mp hf with hf | hf
    · exact h5 f hf
    · obtain ⟨pr, hpr, rfl⟩ := List.mem_map.mp hf
      obtain ⟨q, hq, rfl⟩ := List.mem_map.mp hpr
      exact h4 _ (List.mem_map_of_mem _ hq)

theorem Good_pollIteration (st : CurlMulti) (o : PollOracle)
    (h : Good st) : Good (pollIteration st o) := by
  unfold pollIteration
  by_cases h0 : st.closed = true ∨ st.hasHandle = false ∨
      st.pendingTransfers.isEmpty = true
  · rw [if_pos h0]
    exact h
  · rw [if_neg h0]
    by_cases h1 : o.performCode ≠ CURLM_OK ∧
        o.performCode ≠ CURLM_CALL_MULTI_PERFORM
    · rw [if_pos h1]
      exact Good_failAllPending st _ h
    · rw [if_neg h1]
      have hcc := Good_checkCompleted st o.completions h
      by_cases h2 : o.runningHandles > 0 ∨
          (checkCompleted st o.completions).pendingTransfers.isEmpty = false
      · rw [if_pos h2]
        by_cases h3 : o.pollCode ≠ CURLM_OK
        · rw [if_pos h3]
          exact Good_failAllPending _ _ hcc
        · rw [if_neg h3]
          exact hcc
      · rw [if_neg h2]
        exact hcc

theorem Good_cancel (st : CurlMulti) (c : Nat) (h : Good st) :
    Good (cancel st c).2 := by
  unfold cancel
  split
  · exact h
  · split
    · exact h
    · rename_i handleAddr hca
      split
      · exact h
      · rename_i pending hl
        show Good
          { st with
              registered := st.registered.erase pending.handle,
              pendingTransfers := eraseA st.pendingTransfers handleAddr,
              curlToAddr := eraseA st.curlToAddr c,
              events := st.events ++
                [(pending.fid, Resolution.failure .cancelled)] }
        have hrem := GoodCore_remove handleAddr c pending
          (Resolution.failure .cancelled) h hl
        obtain ⟨hpa0, hph0⟩ := (h.2.2.2.2.2.2.2.1) _ (lookupA_mem hl)
        have hpa : pending.handleAddr = handleAddr := hpa0
        rw [hpa] at hrem
        exact hrem

theorem Good_close (st : CurlMulti) (h : Good st) : Good (close st) := by
  unfold close
  by_cases hc : st.closed
  · simp only [hc, if_true]
    exact h
  · simp only [hc, if_false]
    exact Good_failAllPending { st with closed := true } _ h

theorem Good_applyOp (st : CurlMulti) (op : MOp) (h : Good st) :
    Good (applyOp st op) := by
  cases op with
  | submit c eh => exact Good_perform st c eh h
  | poll o => exact Good_pollIteration st o h
  | cancel c => exact Good_cancel st c h
  | close => exact Good_close st h

theorem Good_run (st : CurlMulti) (ops : List MOp) (h : Good st) :
    Good (run st ops) := by
  induction ops generalizing st with
  | nil => exact h
  | cons op rest ih =>
    exact ih _ (Good_applyOp st op h)

theorem Good_mkCurlMulti : Good mkCurlMulti := by decide

/-! ### WebSocket session (`AsyncWebSocket`, src/websocket/websocket.ts)

Payloads (`Buffer`s) are lists of byte values; a reason string is kept as
its UTF-8 byte sequence. `sentFrames` logs every invocation of the native
`curl_ws_send` primitive as a `(payload, flags)` pair, in order. The
native engine's answers to `curl_ws_recv` / `curl_ws_send` are supplied
as oracle values. -/

/-- Source: `WebSocketMessageType`. -/
inductive WebSocketMessageType where
  | text
  | binary
  | ping
  | pong
  | close
deriving DecidableEq, Repr

/-- Source: `WebSocketMessage`: a type tag plus byte payload. -/
structure WebSocketMessage where
  type : WebSocketMessageType
  data : List Nat
deriving DecidableEq, Repr

/-- Source: `WebSocketCloseEvent`: numeric close code, reason (UTF-8 bytes),
clean flag. -/
structure WebSocketCloseEvent where
  code : Nat
  reason : List Nat
  wasClean : Bool
deriving DecidableEq, Repr

/-- The distinguishable WebSocket errors thrown by `websocket.ts`:
`WebSocketClosed(closeCode, closeReason)` and the `WebSocketError`s,
told apart by their message text. -/
inductive WsFailure where
  /-- Source: `WebSocketClosed(code, reason)`. -/
  | closedErr (closeCode : Nat) (closeReason : List Nat)
  /-- Source: `WebSocketError("Send failed with code ...")`. -/
  | sendFailed (code : Nat)
  /-- Source: `WebSocketError("Incomplete send: sent/total bytes")`. -/
  | incompleteSend (sent total : Nat)
  /-- Source: `WebSocketError("Receive error: ...")`. -/
  | recvError (code : Nat)
  /-- Source: `WebSocketError("Receive timeout")`. -/
  | receiveTimeout
deriving DecidableEq, Repr

/-- Mutable state of one `AsyncWebSocket` (the fields the verified
operations read or write). -/
structure AsyncWebSocket where
  connected : Bool
  closed : Bool
  closeEvent : Option WebSocketCloseEvent
  messageQueue : List WebSocketMessage
  sentFrames : List (List Nat × Nat)
deriving DecidableEq, Repr

/-- What one native `curl_ws_recv` call reports: status code, the bytes
written into the receive buffer, and the frame flags (if frame meta was
available). -/
structure WsRecvResult where
  code : Nat
  payload : List Nat
  frameFlags : Option Nat
deriving DecidableEq, Repr

/-- What one native `curl_ws_send` call reports: status code and bytes
sent. -/
structure WsSendResult where
  code : Nat
  sent : Nat
deriving DecidableEq, Repr

/-- JS `this._closeEvent?.code || dflt` (`0` is falsy in JS). -/
def closeCodeOrDefault (ce : Option WebSocketCloseEvent) (dflt : Nat) :
    Nat :=
  match ce with
  | none => dflt
  | some e => if e.code = 0 then dflt else e.code

/-- JS `this._closeEvent?.reason || dflt` (`""` is falsy in JS). -/
def closeReasonOrDefault (ce : Option WebSocketCloseEvent)
    (dflt : List Nat) : List Nat :=
  match ce with
  | none => dflt
  | some e => if e.reason = [] then dflt else e.reason

/-- UTF-8 bytes of `"Connection closed"`. -/
def connectionClosedReason : List Nat :=
  ("Connection closed" : String).toUTF8.toList.map (fun b => b.toNat)

/-- Source: `AsyncWebSocket.frameToMessage(data, flags)`: flag-bit dispatch to a
message type (defaulting to binary). -/
def frameToMessage (data : List Nat) (flags : Nat) : WebSocketMessage :=
  if flags &&& CURLWS_TEXT ≠ 0 then ⟨.text, data⟩
  else if flags &&& CURLWS_BINARY ≠ 0 then ⟨.binary, data⟩
  else if flags &&& CURLWS_PING ≠ 0 then ⟨.ping, data⟩
  else if flags &&& CURLWS_PONG ≠ 0 then ⟨.pong, data⟩
  else if flags &&& CURLWS_CLOSE ≠ 0 then ⟨.close, data⟩
  else ⟨.binary, data⟩

/-- Source: `AsyncWebSocket.handleCloseFrame(data)`: parse close code (two
big-endian bytes) and reason, record the Close Event as clean, and move
to the closed state. -/
def handleCloseFrame (st : AsyncWebSocket) (data : List Nat) :
    AsyncWebSocket :=
  match data with
  | b0 :: b1 :: rest =>
    { st with
        closeEvent := some ⟨b0 * 256 + b1, rest, true⟩,
        closed := true, connected := false }
  | _ =>
    { st with
        closeEvent := some ⟨1000, [], true⟩,
        closed := true, connected := false }

/-- Source: `AsyncWebSocket.sendRaw(data, flags)`: one native `curl_ws_send`
invocation.  `native` is what the engine reports for it. -/
def sendRaw (st : AsyncWebSocket) (data : List Nat) (flags : Nat)
    (native : WsSendResult) : Except WsFailure Unit × AsyncWebSocket :=
  if st.closed then
    (.error (.closedErr (closeCodeOrDefault st.closeEvent 1006)
      (closeReasonOrDefault st.closeEvent connectionClosedReason)), st)
  else
    let st1 := { st with sentFrames := st.sentFrames ++ [(data, flags)] }
    if native.code ≠ CURLE_OK then
      (.error (.sendFailed native.code), st1)
    else if native.sent ≠ data.length then
      (.error (.incompleteSend native.sent data.length), st1)
    else (.ok (), st1)

/-- Source: `AsyncWebSocket.send(data)` (binary). -/
def wsSend (st : AsyncWebSocket) (data : List Nat)
    (native : WsSendResult) : Except WsFailure Unit × AsyncWebSocket :=
  sendRaw st data CURLWS_BINARY native

/-- Source: `AsyncWebSocket.sendStr(text)`; `text` is given by its UTF-8 bytes. -/
def sendStr (st : AsyncWebSocket) (textBytes : List Nat)
    (native : WsSendResult) : Except WsFailure Unit × AsyncWebSocket :=
  sendRaw st textBytes CURLWS_TEXT native

/-- Source: `AsyncWebSocket.ping(data?)`. -/
def wsPing (st : AsyncWebSocket) (data : Option (List Nat))
    (native : WsSendResult) : Except WsFailure Unit × AsyncWebSocket :=
  sendRaw st (data.getD []) CURLWS_PING native

/-- Source: `AsyncWebSocket.sendPong(data)`. -/
def sendPong (st : AsyncWebSocket) (data : List Nat)
    (native : WsSendResult) : Except WsFailure Unit × AsyncWebSocket :=
  sendRaw st data CURLWS_PONG native

/-- Outcome of one `tryReceive()` call: a returned message, `null`, or a
thrown error. -/
inductive TryReceiveOutcome where
  | message (m : WebSocketMessage)
  | nothing
  | thrown (e : WsFailure)
deriving DecidableEq, Repr

/-- Source: `AsyncWebSocket.tryReceive()`: one non-blocking native frame read.
`native` is the `curl_ws_recv` report; `pongSend` is what the engine
would report for the automatic pong reply, should one be sent (the reply
is best-effort: `this.sendPong(...).catch(() => {})`). -/
def tryReceive (st : AsyncWebSocket) (native : WsRecvResult)
    (pongSend : WsSendResult) : AsyncWebSocket × TryReceiveOutcome :=
  if st.closed then (st, .nothing)
  else if native.code = CURLE_OK ∧ native.payload.length > 0 then
    let data := native.payload
    let flags := native.frameFlags.getD CURLWS_TEXT
    let message := frameToMessage data flags
    if message.type = .close then
      let st1 := handleCloseFrame st data
      (st1, .thrown (.closedErr (closeCodeOrDefault st1.closeEvent 1000)
        (closeReasonOrDefault st1.closeEvent [])))
    else if message.type = .ping then
      ((sendPong st data pongSend).2, .message message)
    else (st, .message message)
  else if native.code = CURLE_AGAIN then (st, .nothing)
  else if native.code ≠ CURLE_OK then (st, .thrown (.recvError native.code))
  else (st, .nothing)

/-- One invocation of the `poll` closure inside `recv`: the elapsed
wall-clock milliseconds `Date.now() - startTime` at its start, and the
native engine's answers should `tryReceive` run. -/
structure RecvStep where
  elapsed : Nat
  native : WsRecvResult
  pongSend : WsSendResult
deriving Repr

/-- Outcome of a `recv` call: a resolved message, a rejection, or still
polling when the supplied schedule runs out. -/
inductive RecvOutcome where
  | msg (m : WebSocketMessage)
  | rejected (e : WsFailure)
  | stillPolling
deriving DecidableEq, Repr

/-- Source: `timeoutMs` comparison in `poll`: `Date.now() - startTime >=
timeoutMs`, where an omitted timeout is `Infinity` (never reached). -/
def timedOut (timeoutMs : Option ℚ) (elapsed : Nat) : Bool :=
  match timeoutMs with
  | none => false
  | some t => decide ((elapsed : ℚ) ≥ t)

/-- The `poll` loop of `AsyncWebSocket.recv`; returns the final state,
the outcome, and how many native frame reads (`tryReceive` calls) were
attempted. -/
def recvPoll (timeoutMs : Option ℚ) :
    AsyncWebSocket → List RecvStep → AsyncWebSocket × RecvOutcome × Nat
  | st, [] => (st, .stillPolling, 0)
  | st, step :: rest =>
    if timedOut timeoutMs step.elapsed then
      (st, .rejected .receiveTimeout, 0)
    else if st.closed then
      (st, .rejected (.closedErr (closeCodeOrDefault st.closeEvent 1006)
        (closeReasonOrDefault st.closeEvent connectionClosedReason)), 0)
    else
      match tryReceive st step.native step.pongSend with
      | (st1, .message m) => (st1, .msg m, 1)
      | (st1, .thrown e) => (st1, .rejected e, 1)
      | (st1, .nothing) =>
        let r := recvPoll timeoutMs st1 rest
        (r.1, r.2.1, r.2.2 + 1)

/-- Source: `AsyncWebSocket.recv(timeout?)`: closed check, queued-message check,
then the poll loop with `timeoutMs = timeout * 1000` (timeout given in
seconds; omitted means wait indefinitely). -/
def recv (st : AsyncWebSocket) (timeout : Option ℚ)
    (steps : List RecvStep) : AsyncWebSocket × RecvOutcome × Nat :=
  if st.closed then
    (st, .rejected (.closedErr (closeCodeOrDefault st.closeEvent 1006)
      (closeReasonOrDefault st.closeEvent connectionClosedReason)), 0)
  else
    match st.messageQueue with
    | m :: restQ => ({ st with messageQueue := restQ }, .msg m, 0)
    | [] => recvPoll (timeout.map (fun t => t * 1000)) st steps

/-! ### Write-callback bridge (`wrapWriteCallback`, src/core/multi.ts)

The registered callback receives `(data, size, nmemb)`.  In a native
invocation `data` is an opaque pointer into the engine's buffer
(`dataIsBuffer = false`), decoded with `koffi.decode` into a fresh owned
array; the defensive `Buffer.isBuffer(data)` branch
(`dataIsBuffer = true`) instead takes a `subarray` view that aliases the
caller's buffer.  `ownedCopy` records which of the two happened. -/

/-- Result of one wrapped write-callback invocation: the `size_t` return
value, the chunk the user function was invoked with (if it was invoked),
and whether that chunk was an owned copy of the native buffer. -/
structure WriteCallResult where
  retval : Nat
  invoked : Option (List Nat)
  ownedCopy : Bool
deriving DecidableEq, Repr

/-- Source: `wrapWriteCallback(fn)` applied to one native invocation.  `fn`
returns `some n` when the user function returns the number `n` and
`none` when it returns nothing (`undefined`); `data` is the byte content
at the pointer. -/
def wrapWriteCallback (fn : List Nat → Option Nat) (dataIsBuffer : Bool)
    (data : List Nat) (size nmemb : Nat) : WriteCallResult :=
  let length := size * nmemb
  if length = 0 then ⟨0, none, true⟩
  else
    let chunk := data.take length
    ⟨(fn chunk).getD length, some chunk, !dataIsBuffer⟩

/-! ### Claim theorems -/

/-- C1: for every scheduler instance (any state satisfying the scheduler
invariant `Good`, open and holding its native context) and every handle
that already has a Pending Transfer Record, a second submission of a
handle with the same identity is rejected — the native context refuses
the double registration (`CURLM_ADDED_ALREADY`), which `perform` turns
into the duplicate-handle rejection — and the state, hence the first
pending record and its future, is unchanged. -/
theorem submit_duplicate_rejected (st : CurlMulti) (c h : Nat)
    (p : PendingTransfer) (hG : Good st)
    (hpend : lookupA st.pendingTransfers h = some p)
    (hclosed : st.closed = false) (hhandle : st.hasHandle = true) :
    perform st c (some h) =
      (.error (.addHandleFailed CURLM_ADDED_ALREADY), st) := by
  have hmem : (h, p) ∈ st.pendingTransfers := lookupA_mem hpend
  have hkey : h ∈ st.pendingTransfers.map Prod.fst :=
    List.mem_map_of_mem _ hmem
  have hreg : h ∈ st.registered := hG.2.2.2.2.2.2.2.2 h hkey
  unfold perform curl_multi_add_handle
  rw [hclosed, hhandle]
  simp only [Bool.false_eq_true, if_false, if_pos hreg]
  norm_num [CURLM_ADDED_ALREADY, CURLM_OK]

/-- Witness for C1 at a concrete state: one submission of handle 5, then
a duplicate submission. -/
theorem submit_duplicate_rejected_witness :
    perform (perform mkCurlMulti 1 (some 5)).2 2 (some 5) =
      (.error (.addHandleFailed CURLM_ADDED_ALREADY),
       (perform mkCurlMulti 1 (some 5)).2) :=
  submit_duplicate_rejected (perform mkCurlMulti 1 (some 5)).2 2 5
    ⟨1, 5, 5, 0⟩ (by decide) (by decide) (by decide) (by decide)

/-- C2: if the native advance step (`curl_multi_perform`) or the native
wait step (`curl_multi_poll`) returns a fatal status during a poll
iteration, every pending record's future is rejected with the same
error (`performFailed` resp. `pollFailed` with that status) and the
pending set is empty afterwards.  For the wait step, "pending" is what
remains after the completion queue of that iteration was drained. -/
theorem context_fault_broadcast (st : CurlMulti) (o : PollOracle)
    (hclosed : st.closed = false) (hhandle : st.hasHandle = true)
    (hne : st.pendingTransfers ≠ []) :
    ((o.performCode ≠ CURLM_OK ∧ o.performCode ≠ CURLM_CALL_MULTI_PERFORM) →
      (pollIteration st o).pendingTransfers = [] ∧
      (pollIteration st o).events = st.events ++
        st.pendingTransfers.map (fun p =>
          (p.2.fid, Resolution.failure (.performFailed o.performCode)))) ∧
    ((o.performCode = CURLM_OK ∨ o.performCode = CURLM_CALL_MULTI_PERFORM) →
      o.pollCode ≠ CURLM_OK →
      (o.runningHandles > 0 ∨
        (checkCompleted st o.completions).pendingTransfers.isEmpty = false) →
      (pollIteration st o).pendingTransfers = [] ∧
      (pollIteration st o).events =
        (checkCompleted st o.completions).events ++
        (checkCompleted st o.completions).pendingTransfers.map (fun p =>
          (p.2.fid, Resolution.failure (.pollFailed o.pollCode)))) := by
  have hguard : ¬(st.closed = true ∨ st.hasHandle = false ∨
      st.pendingTransfers.isEmpty = true) := by
    rw [hclosed, hhandle]
    simp [List.isEmpty_iff, hne]
  constructor
  · intro hfatal
    unfold pollIteration
    rw [if_neg hguard, if_pos hfatal]
    exact ⟨rfl, rfl⟩
  · intro hok hpoll hstill
    have hnotfatal : ¬(o.performCode ≠ CURLM_OK ∧
        o.performCode ≠ CURLM_CALL_MULTI_PERFORM) := by
      rcases hok with hok | hok <;> simp [hok]
    unfold pollIteration
    rw [if_neg hguard, if_neg hnotfatal, if_pos hstill, if_pos hpoll]
    exact ⟨rfl, rfl⟩

/-- Witness for C2 at a concrete state with two pending records: a fatal
advance status (CURLM_OUT_OF_MEMORY = 3) broadcasts to both futures, and
a fatal wait status does the same. -/
theorem context_fault_broadcast_witness :
    ((pollIteration (perform (perform mkCurlMulti 1 (some 5)).2 2
        (some 6)).2 ⟨3, 2, [], 0⟩).pendingTransfers = [] ∧
      (pollIteration (perform (perform mkCurlMulti 1 (some 5)).2 2
        (some 6)).2 ⟨3, 2, [], 0⟩).events =
        [(0, .failure (.performFailed 3)), (1, .failure (.performFailed 3))]) ∧
    ((pollIteration (perform (perform mkCurlMulti 1 (some 5)).2 2
        (some 6)).2 ⟨0, 2, [], 3⟩).pendingTransfers = [] ∧
      (pollIteration (perform (perform mkCurlMulti 1 (some 5)).2 2
        (some 6)).2 ⟨0, 2, [], 3⟩).events =
        [(0, .failure (.pollFailed 3)), (1, .failure (.pollFailed 3))]) := by
  constructor
  · exact (context_fault_broadcast _ ⟨3, 2, [], 0⟩ (by decide) (by decide)
      (by decide)).1 (by decide)
  · exact (context_fault_broadcast _ ⟨0, 2, [], 3⟩ (by decide) (by decide)
      (by decide)).2 (by decide) (by decide) (by decide)

/-- Helper: `cancel` returns `false` when the curl object has no entry
in `curlToAddr`. -/
theorem cancel_fst_false (st : CurlMulti) (c : Nat)
    (hca : lookupA st.curlToAddr c = none) : (cancel st c).1 = false := by
  unfold cancel
  by_cases hh : st.hasHandle = false
  · rw [if_pos hh]
  · rw [if_neg hh, hca]

/-- C3: cancelling a handle with no Pending Transfer Record returns
`false` and changes no state; cancelling a handle with a record removes
the record, unregisters the handle from the native context, rejects its
future with `Cancelled`, and returns `true`; and a subsequent cancel of
the same handle returns `false`. -/
theorem cancel_spec (st : CurlMulti) (c a : Nat) (p : PendingTransfer)
    (hG : Good st) (hhandle : st.hasHandle = true) :
    (lookupA st.curlToAddr c = none → cancel st c = (false, st)) ∧
    (lookupA st.curlToAddr c = some a →
      lookupA st.pendingTransfers a = none → cancel st c = (false, st)) ∧
    (lookupA st.curlToAddr c = some a →
      lookupA st.pendingTransfers a = some p →
      cancel st c = (true,
        { st with
            registered := st.registered.erase p.handle,
            pendingTransfers := eraseA st.pendingTransfers a,
            curlToAddr := eraseA st.curlToAddr c,
            events := st.events ++
              [(p.fid, Resolution.failure .cancelled)] }) ∧
      (cancel (cancel st c).2 c).1 = false) := by
  have hh : ¬st.hasHandle = false := by rw [hhandle]; simp
  refine ⟨?_, ?_, ?_⟩
  · intro hca
    unfold cancel
    rw [if_neg hh, hca]
  · intro hca hpend
    unfold cancel
    rw [if_neg hh]
    simp only [hca, hpend]
  · intro hca hpend
    have heq : cancel st c = (true,
        { st with
            registered := st.registered.erase p.handle,
            pendingTransfers := eraseA st.pendingTransfers a,
            curlToAddr := eraseA st.curlToAddr c,
            events := st.events ++
              [(p.fid, Resolution.failure .cancelled)] }) := by
      unfold cancel
      rw [if_neg hh]
      simp only [hca, hpend]
    refine ⟨heq, ?_⟩
    rw [heq]
    exact cancel_fst_false _ c
      (lookupA_eraseA_self hG.2.2.2.2.2.2.1)

/-- Witness for C3 at a concrete state with one pending record for curl
object 1 / handle 5. -/
theorem cancel_spec_witness :
    cancel (perform mkCurlMulti 1 (some 5)).2 7 = (false,
      (perform mkCurlMulti 1 (some 5)).2) ∧
    (cancel (perform mkCurlMulti 1 (some 5)).2 1 = (true,
      { (perform mkCurlMulti 1 (some 5)).2 with
          registered := [], pendingTransfers := [], curlToAddr := [],
          events := [(0, Resolution.failure .cancelled)] }) ∧
     (cancel (cancel (perform mkCurlMulti 1 (some 5)).2 1).2 1).1 =
       false) := by
  constructor
  · exact (cancel_spec (perform mkCurlMulti 1 (some 5)).2 7 5 ⟨1, 5, 5, 0⟩
      (by decide) (by decide)).1 (by decide)
  · exact (cancel_spec (perform mkCurlMulti 1 (some 5)).2 1 5 ⟨1, 5, 5, 0⟩
      (by decide) (by decide)).2.2 (by decide) (by decide)

/-- Helper: `close` on an already-closed scheduler returns the state
unchanged. -/
theorem close_of_closed (st : CurlMulti) (h : st.closed = true) :
    close st = st := by
  unfold close
  rw [if_pos h]

/-- C4: `close()` rejects every pending future with the scheduler-closed
error, empties the pending set, and releases the native multiplexing
context; every submission after `close()` fails immediately with the
already-closed error; and a second or later `close()` is a no-op. -/
theorem close_spec (st : CurlMulti) :
    (st.closed = false →
      (close st).pendingTransfers = [] ∧
      (close st).hasHandle = false ∧
      (close st).closed = true ∧
      (close st).events = st.events ++
        st.pendingTransfers.map (fun p =>
          (p.2.fid, Resolution.failure .multiClosed))) ∧
    (∀ (c : Nat) (eh : Option Nat),
      perform (close st) c eh = (.error .alreadyClosed, close st)) ∧
    close (close st) = close st := by
  have hclosed : (close st).closed = true := by
    unfold close
    by_cases hc : st.closed
    · rw [if_pos hc]
      exact hc
    · rw [if_neg hc]
      rfl
  refine ⟨?_, ?_, ?_⟩
  · intro hc
    unfold close
    rw [if_neg (by rw [hc]; simp : ¬st.closed = true)]
    exact ⟨rfl, rfl, rfl, rfl⟩
  · intro c eh
    unfold perform
    rw [if_pos hclosed]
  · exact close_of_closed _ hclosed

/-- Witness for C4 at a concrete state with one pending record. -/
theorem close_spec_witness :
    ((close (perform mkCurlMulti 1 (some 5)).2).pendingTransfers = [] ∧
     (close (perform mkCurlMulti 1 (some 5)).2).hasHandle = false ∧
     (close (perform mkCurlMulti 1 (some 5)).2).closed = true ∧
     (close (perform mkCurlMulti 1 (some 5)).2).events =
       [(0, Resolution.failure .multiClosed)]) ∧
    perform (close (perform mkCurlMulti 1 (some 5)).2) 2 (some 6) =
      (.error .alreadyClosed, close (perform mkCurlMulti 1 (some 5)).2) ∧
    close (close (perform mkCurlMulti 1 (some 5)).2) =
      close (perform mkCurlMulti 1 (some 5)).2 :=
  ⟨(close_spec (perform mkCurlMulti 1 (some 5)).2).1 (by decide),
   (close_spec (perform mkCurlMulti 1 (some 5)).2).2.1 2 (some 6),
   (close_spec (perform mkCurlMulti 1 (some 5)).2).2.2⟩

/-- C9: across any sequence of operations on a scheduler instance
(submissions, poll iterations with arbitrary native reports,
cancellations, close), each future id appears at most once in the
resolution event log: a record's future, once resolved with success,
failure, or cancellation, is never resolved again. -/
theorem future_resolved_at_most_once (ops : List MOp) :
    ((run mkCurlMulti ops).events.map Prod.fst).Nodup :=
  (Good_run mkCurlMulti ops Good_mkCurlMulti).1

/-- C5: for a native invocation of the wrapped write callback with a
pointer (`dataIsBuffer = false`) carrying at least `size * nmemb` valid
bytes: a zero-length invocation returns 0 without invoking the user
function; otherwise the user function receives an owned copy of exactly
the `size * nmemb` bytes at the pointer (no reference to the native
buffer is retained), and the callback returns the user function's byte
count when it returns a number, or the full length when it returns
nothing. -/
theorem wrapWriteCallback_spec (fn : List Nat → Option Nat)
    (data : List Nat) (size nmemb : Nat)
    (hlen : size * nmemb ≤ data.length) :
    (size * nmemb = 0 →
      wrapWriteCallback fn false data size nmemb = ⟨0, none, true⟩) ∧
    (size * nmemb ≠ 0 →
      (wrapWriteCallback fn false data size nmemb).invoked =
        some (data.take (size * nmemb)) ∧
      (data.take (size * nmemb)).length = size * nmemb ∧
      (wrapWriteCallback fn false data size nmemb).ownedCopy = true ∧
      (∀ n, fn (data.take (size * nmemb)) = some n →
        (wrapWriteCallback fn false data size nmemb).retval = n) ∧
      (fn (data.take (size * nmemb)) = none →
        (wrapWriteCallback fn false data size nmemb).retval =
          size * nmemb)) := by
  constructor
  · intro h0
    unfold wrapWriteCallback
    rw [if_pos h0]
  · intro hne
    unfold wrapWriteCallback
    rw [if_neg hne]
    refine ⟨rfl, ?_, rfl, ?_, ?_⟩
    · rw [List.length_take]
      exact Nat.min_eq_left hlen
    · intro n hn
      simp [hn]
    · intro hn
      simp [hn]

/-- Witness for C5: a 3-byte pointer invocation with a consuming user
function, and a zero-length invocation. -/
theorem wrapWriteCallback_spec_witness :
    wrapWriteCallback (fun c => some c.length) false [10, 20, 30] 0 7 =
      ⟨0, none, true⟩ ∧
    (wrapWriteCallback (fun c => some c.length) false [10, 20, 30] 1
        3).invoked = some [10, 20, 30] ∧
    (wrapWriteCallback (fun c => some c.length) false [10, 20, 30] 1
        3).retval = 3 := by
  refine ⟨?_, ?_, ?_⟩
  · exact (wrapWriteCallback_spec (fun c => some c.length) [10, 20, 30] 0 7
      (by decide)).1 (by decide)
  · exact ((wrapWriteCallback_spec (fun c => some c.length) [10, 20, 30] 1 3
      (by decide)).2 (by decide)).1
  · exact ((wrapWriteCallback_spec (fun c => some c.length) [10, 20, 30] 1 3
      (by decide)).2 (by decide)).2.2.2.1 3 (by decide)

/-- C8: for every send operation (`send`/`sendStr`/`ping` all route
through `sendRaw`): on an already-closed session the operation fails
with `WebSocketClosed`; a non-success native status fails with
`WebSocketError` carrying that code; a reported byte count different
from the payload length fails with the incomplete-send error; and in
every case at most one native send is attempted — the payload is never
automatically re-sent. -/
theorem sendRaw_spec (st : AsyncWebSocket) (data : List Nat)
    (flags : Nat) (native : WsSendResult) :
    (st.closed = true → sendRaw st data flags native =
      (.error (.closedErr (closeCodeOrDefault st.closeEvent 1006)
        (closeReasonOrDefault st.closeEvent connectionClosedReason)),
       st)) ∧
    (st.closed = false → native.code ≠ CURLE_OK →
      sendRaw st data flags native =
        (.error (.sendFailed native.code),
         { st with sentFrames := st.sentFrames ++ [(data, flags)] })) ∧
    (st.closed = false → native.code = CURLE_OK →
      native.sent ≠ data.length →
      sendRaw st data flags native =
        (.error (.incompleteSend native.sent data.length),
         { st with sentFrames := st.sentFrames ++ [(data, flags)] })) ∧
    ((sendRaw st data flags native).2.sentFrames = st.sentFrames ∨
     (sendRaw st data flags native).2.sentFrames =
       st.sentFrames ++ [(data, flags)]) ∧
    wsSend st data native = sendRaw st data CURLWS_BINARY native ∧
    sendStr st data native = sendRaw st data CURLWS_TEXT native ∧
    wsPing st (some data) native = sendRaw st data CURLWS_PING native := by
  refine ⟨?_, ?_, ?_, ?_, rfl, rfl, rfl⟩
  · intro hc
    unfold sendRaw
    rw [if_pos hc]
  · intro hc hcode
    unfold sendRaw
    rw [if_neg (by rw [hc]; simp : ¬st.closed = true), if_pos hcode]
  · intro hc hcode hsent
    unfold sendRaw
    rw [if_neg (by rw [hc]; simp : ¬st.closed = true),
      if_neg (by rw [hcode]; simp : ¬native.code ≠ CURLE_OK),
      if_pos hsent]
  · unfold sendRaw
    by_cases hc : st.closed = true
    · rw [if_pos hc]
      exact Or.inl rfl
    · rw [if_neg hc]
      by_cases hcode : native.code ≠ CURLE_OK
      · rw [if_pos hcode]
        exact Or.inr rfl
      · rw [if_neg hcode]
        by_cases hsent : native.sent ≠ data.length
        · rw [if_pos hsent]
          exact Or.inr rfl
        · rw [if_neg hsent]
          exact Or.inr rfl

/-- Witness for C8: a closed session rejects, a native code 55 rejects
with that code, and a short write of 2 of 3 bytes rejects as
incomplete. -/
theorem sendRaw_spec_witness :
    sendRaw ⟨false, true, some ⟨1000, [], true⟩, [], []⟩ [1, 2, 3]
        CURLWS_BINARY ⟨0, 3⟩ =
      (.error (.closedErr 1000 connectionClosedReason),
       ⟨false, true, some ⟨1000, [], true⟩, [], []⟩) ∧
    sendRaw ⟨true, false, none, [], []⟩ [1, 2, 3] CURLWS_BINARY ⟨55, 0⟩ =
      (.error (.sendFailed 55),
       ⟨true, false, none, [], [([1, 2, 3], CURLWS_BINARY)]⟩) ∧
    sendRaw ⟨true, false, none, [], []⟩ [1, 2, 3] CURLWS_TEXT ⟨0, 2⟩ =
      (.error (.incompleteSend 2 3),
       ⟨true, false, none, [], [([1, 2, 3], CURLWS_TEXT)]⟩) :=
  ⟨(sendRaw_spec ⟨false, true, some ⟨1000, [], true⟩, [], []⟩ [1, 2, 3]
      CURLWS_BINARY ⟨0, 3⟩).1 (by decide),
   (sendRaw_spec ⟨true, false, none, [], []⟩ [1, 2, 3] CURLWS_BINARY
      ⟨55, 0⟩).2.1 (by decide) (by decide),
   (sendRaw_spec ⟨true, false, none, [], []⟩ [1, 2, 3] CURLWS_TEXT
      ⟨0, 2⟩).2.2.1 (by decide) (by decide) (by decide)⟩

/-- C6 counterexample: on an open session, a receive that decodes a ping
frame with payload `"x"` (byte 120) RETURNS that ping message to the
caller — `tryReceive` falls through to `return message` after queueing
the pong — so the claim that the ping frame is not surfaced as the
return value of the receive call is false on the code. -/
theorem ping_surfaced_counterexample :
    (recv ⟨true, false, none, [], []⟩ none
        [⟨0, ⟨CURLE_OK, [120], some CURLWS_PING⟩, ⟨CURLE_OK, 1⟩⟩]).2.1 =
      RecvOutcome.msg ⟨.ping, [120]⟩ := by
  rfl

/-- C6 amended: a decoded ping frame with payload `p` triggers exactly
one pong frame with the same payload `p` sent on the handle; the reply
is best-effort — the result does not depend on the native send report
for it, so failures are swallowed — but the ping message itself IS
returned by the receive call. -/
theorem ping_auto_pong (st : AsyncWebSocket) (step : RecvStep)
    (rest : List RecvStep) (hopen : st.closed = false)
    (hq : st.messageQueue = []) (hcode : step.native.code = CURLE_OK)
    (hne : step.native.payload ≠ [])
    (hflags : step.native.frameFlags = some CURLWS_PING) :
    recv st none (step :: rest) =
      ({ st with sentFrames :=
          st.sentFrames ++ [(step.native.payload, CURLWS_PONG)] },
       .msg ⟨.ping, step.native.payload⟩, 1) := by
  have hnc : ¬st.closed = true := by rw [hopen]; simp
  have hlen : step.native.payload.length > 0 :=
    List.length_pos.mpr hne
  have hmsg : frameToMessage step.native.payload CURLWS_PING =
      ⟨.ping, step.native.payload⟩ := by
    unfold frameToMessage
    rw [if_neg (by decide : ¬CURLWS_PING &&& CURLWS_TEXT ≠ 0),
      if_neg (by decide : ¬CURLWS_PING &&& CURLWS_BINARY ≠ 0),
      if_pos (by decide : CURLWS_PING &&& CURLWS_PING ≠ 0)]
  have htr : tryReceive st step.native step.pongSend =
      ({ st with sentFrames :=
          st.sentFrames ++ [(step.native.payload, CURLWS_PONG)] },
       .message ⟨.ping, step.native.payload⟩) := by
    unfold tryReceive
    rw [if_neg hnc, if_pos ⟨hcode, hlen⟩, hflags]
    simp only [Option.getD_some, hmsg]
    simp only [if_true]
    rw [if_neg (by decide : ¬(WebSocketMessageType.ping =
      WebSocketMessageType.close))]
    unfold sendPong sendRaw
    rw [if_neg hnc]
    by_cases h1 : step.pongSend.code ≠ CURLE_OK
    · rw [if_pos h1]
    · rw [if_neg h1]
      by_cases h2 : step.pongSend.sent ≠ step.native.payload.length
      · rw [if_pos h2]
      · rw [if_neg h2]
  unfold recv
  rw [if_neg hnc, hq]
  unfold recvPoll
  rw [show timedOut (Option.map (fun t => t * 1000) none) step.elapsed =
    false from rfl]
  simp only [Bool.false_eq_true, if_false, if_neg hnc, htr]
  rw [hq]

/-- Witness for C6 amended: ping `"x"` on an open session whose pong
reply fails natively with code 55 — the pong send is still attempted
and the ping is still returned. -/
theorem ping_auto_pong_witness :
    recv ⟨true, false, none, [], []⟩ none
        [⟨0, ⟨CURLE_OK, [120], some CURLWS_PING⟩, ⟨55, 0⟩⟩] =
      (⟨true, false, none, [], [([120], CURLWS_PONG)]⟩,
       .msg ⟨.ping, [120]⟩, 1) :=
  ping_auto_pong ⟨true, false, none, [], []⟩
    ⟨0, ⟨CURLE_OK, [120], some CURLWS_PING⟩, ⟨55, 0⟩⟩ [] (by decide)
    (by decide) (by decide) (by decide) (by decide)

/-- C7 counterexample: decoding a close frame whose payload is the two
big-endian bytes of code 0 (with empty reason) sets the Close Event to
`{code := 0, reason := "", wasClean := true}` and closes the session,
but the receive call rejects with `WebSocketClosed` carrying code 1000,
not the decoded code 0 (JS `this._closeEvent?.code || 1000` treats 0 as
falsy) — so the claim is false at `c = 0`. -/
theorem close_code_not_carried_counterexample :
    recv ⟨true, false, none, [], []⟩ none
        [⟨0, ⟨CURLE_OK, [0, 0], some CURLWS_CLOSE⟩, ⟨CURLE_OK, 0⟩⟩] =
      (⟨false, true, some ⟨0, [], true⟩, [], []⟩,
       .rejected (.closedErr 1000 []), 1) := by
  rfl

/-- C7 amended: decoding a close frame whose payload begins with the two
big-endian bytes of code `c = b0 * 256 + b1` followed by the UTF-8
reason bytes `r` sets the session's Close Event to
`{code := c, reason := r, wasClean := true}`, transitions the session to
Closed, and makes the receive call fail with `WebSocketClosed` carrying
that reason and that code — except that a decoded code 0 is reported as
1000. -/
theorem close_frame_spec (st : AsyncWebSocket) (b0 b1 : Nat)
    (restBytes : List Nat) (step : RecvStep) (rest : List RecvStep)
    (hopen : st.closed = false) (hq : st.messageQueue = [])
    (hcode : step.native.code = CURLE_OK)
    (hpayload : step.native.payload = b0 :: b1 :: restBytes)
    (hflags : step.native.frameFlags = some CURLWS_CLOSE) :
    recv st none (step :: rest) =
      ({ st with
          closed := true
          connected := false
          closeEvent := some ⟨b0 * 256 + b1, restBytes, true⟩ },
       .rejected (.closedErr
         (if b0 * 256 + b1 = 0 then 1000 else b0 * 256 + b1) restBytes),
       1) := by
  have hnc : ¬st.closed = true := by rw [hopen]; simp
  have hlen : step.native.payload.length > 0 := by
    rw [hpayload]
    simp
  have hmsg : frameToMessage step.native.payload CURLWS_CLOSE =
      ⟨.close, step.native.payload⟩ := by
    unfold frameToMessage
    rw [if_neg (by decide : ¬CURLWS_CLOSE &&& CURLWS_TEXT ≠ 0),
      if_neg (by decide : ¬CURLWS_CLOSE &&& CURLWS_BINARY ≠ 0),
      if_neg (by decide : ¬CURLWS_CLOSE &&& CURLWS_PING ≠ 0),
      if_neg (by decide : ¬CURLWS_CLOSE &&& CURLWS_PONG ≠ 0),
      if_pos (by decide : CURLWS_CLOSE &&& CURLWS_CLOSE ≠ 0)]
  have hreason : (if restBytes = [] then ([] : List Nat) else restBytes) =
      restBytes := by
    by_cases h : restBytes = [] <;> simp [h]
  have htr : tryReceive st step.native step.pongSend =
      ({ st with
          closed := true
          connected := false
          closeEvent := some ⟨b0 * 256 + b1, restBytes, true⟩ },
       .thrown (.closedErr
         (if b0 * 256 + b1 = 0 then 1000 else b0 * 256 + b1)
         restBytes)) := by
    unfold tryReceive
    rw [if_neg hnc, if_pos ⟨hcode, hlen⟩, hflags]
    simp only [Option.getD_some, hmsg]
    simp only [if_true]
    rw [hpayload]
    unfold handleCloseFrame
    simp only [closeCodeOrDefault, closeReasonOrDefault, hreason]
  unfold recv
  rw [if_neg hnc, hq]
  show recvPoll none st (step :: rest) = _
  unfold recvPoll
  rw [show timedOut none step.elapsed = false from rfl]
  simp only [Bool.false_eq_true, if_false, if_neg hnc, htr]
  rw [hq]

/-- Witness for C7 amended: close code 1001 (bytes 3, 233) with reason
`"bye"` (UTF-8 bytes 98, 121, 101). -/
theorem close_frame_spec_witness :
    recv ⟨true, false, none, [], []⟩ none
        [⟨0, ⟨CURLE_OK, [3, 233, 98, 121, 101], some CURLWS_CLOSE⟩,
          ⟨CURLE_OK, 0⟩⟩] =
      (⟨false, true, some ⟨1001, [98, 121, 101], true⟩, [], []⟩,
       .rejected (.closedErr 1001 [98, 121, 101]), 1) :=
  close_frame_spec ⟨true, false, none, [], []⟩ 3 233 [98, 121, 101]
    ⟨0, ⟨CURLE_OK, [3, 233, 98, 121, 101], some CURLWS_CLOSE⟩,
      ⟨CURLE_OK, 0⟩⟩ [] (by decide) (by decide) (by decide) (by decide)
    (by decide)

/-- Helper: `tryReceive` never throws the receive-timeout error (its
thrown errors are `WebSocketClosed` or the receive error). -/
theorem tryReceive_no_timeout (st : AsyncWebSocket)
    (native : WsRecvResult) (pongSend : WsSendResult) :
    (tryReceive st native pongSend).2 ≠ .thrown .receiveTimeout := by
  unfold tryReceive
  split
  · simp
  · split
    · dsimp only
      split
      · simp
      · split <;> simp
    · split
      · simp
      · split <;> simp

/-- Helper: with an omitted timeout (`Infinity`), the poll loop never
rejects with the receive-timeout error. -/
theorem recvPoll_none_no_timeout (steps : List RecvStep)
    (st : AsyncWebSocket) :
    (recvPoll none st steps).2.1 ≠ .rejected .receiveTimeout := by
  induction steps generalizing st with
  | nil => simp [recvPoll]
  | cons step rest ih =>
    unfold recvPoll
    rw [show timedOut none step.elapsed = false from rfl]
    simp only [Bool.false_eq_true, if_false]
    by_cases hc : st.closed = true
    · rw [if_pos hc]
      simp
    · rw [if_neg hc]
      cases htr : tryReceive st step.native step.pongSend with
      | mk st1 out =>
        cases out with
        | message m => simp
        | nothing => simpa using ih st1
        | thrown e =>
          have hne := tryReceive_no_timeout st step.native step.pongSend
          rw [htr] at hne
          simpa using hne

/-- C10: the `recv` timeout parameter is interpreted in seconds
(`timeoutMs = timeout * 1000`); `recv` with `timeout = 0` rejects
immediately with the receive-timeout error without attempting a single
native frame read, even if a frame is available (the read count of the
returned triple is 0 for any step schedule); a sub-timeout poll step
does deliver an available frame; and only an omitted timeout waits
indefinitely — with `timeout = none` the receive-timeout rejection can
never happen. -/
theorem recv_timeout_spec (st : AsyncWebSocket)
    (hopen : st.closed = false) (hq : st.messageQueue = []) :
    (∀ (step : RecvStep) (rest : List RecvStep),
      recv st (some 0) (step :: rest) =
        (st, .rejected .receiveTimeout, 0)) ∧
    (∀ (t : ℚ) (step : RecvStep) (rest : List RecvStep),
      (step.elapsed : ℚ) < t * 1000 → step.native.code = CURLE_OK →
      step.native.payload ≠ [] →
      step.native.frameFlags = some CURLWS_TEXT →
      recv st (some t) (step :: rest) =
        (st, .msg ⟨.text, step.native.payload⟩, 1)) ∧
    (∀ steps : List RecvStep,
      (recv st none steps).2.1 ≠ .rejected .receiveTimeout) := by
  have hnc : ¬st.closed = true := by rw [hopen]; simp
  refine ⟨?_, ?_, ?_⟩
  · intro step rest
    unfold recv
    rw [if_neg hnc, hq]
    show recvPoll (some ((0 : ℚ) * 1000)) st (step :: rest) = _
    unfold recvPoll
    have htime : timedOut (some ((0 : ℚ) * 1000)) step.elapsed = true := by
      unfold timedOut
      rw [decide_eq_true_eq]
      rw [zero_mul]
      exact_mod_cast Nat.cast_nonneg step.elapsed
    rw [htime]
    simp
  · intro t step rest hlt hcode hne hflags
    unfold recv
    rw [if_neg hnc, hq]
    show recvPoll (some (t * 1000)) st (step :: rest) = _
    unfold recvPoll
    have htime : timedOut (some (t * 1000)) step.elapsed = false := by
      unfold timedOut
      rw [decide_eq_false_iff_not]
      exact not_le.mpr hlt
    rw [htime]
    simp only [Bool.false_eq_true, if_false, if_neg hnc]
    have hlen : step.native.payload.length > 0 := List.length_pos.mpr hne
    have hmsg : frameToMessage step.native.payload CURLWS_TEXT =
        ⟨.text, step.native.payload⟩ := by
      unfold frameToMessage
      rw [if_pos (by decide : CURLWS_TEXT &&& CURLWS_TEXT ≠ 0)]
    have htr : tryReceive st step.native step.pongSend =
        (st, .message ⟨.text, step.native.payload⟩) := by
      unfold tryReceive
      rw [if_neg hnc, if_pos ⟨hcode, hlen⟩, hflags]
      simp only [Option.getD_some, hmsg]
      simp
    rw [htr]
  · intro steps
    unfold recv
    rw [if_neg hnc, hq]
    exact recvPoll_none_no_timeout steps st

/-- Witness for C10: timeout 0 rejects with no native read even though a
text frame `"hi"` is available; timeout 0.1 s (100 ms) delivers that
frame at elapsed 0 ms; omitted timeout does not reject with the timeout
error. -/
theorem recv_timeout_spec_witness :
    recv ⟨true, false, none, [], []⟩ (some 0)
        [⟨0, ⟨CURLE_OK, [104, 105], some CURLWS_TEXT⟩, ⟨CURLE_OK, 0⟩⟩] =
      (⟨true, false, none, [], []⟩, .rejected .receiveTimeout, 0) ∧
    recv ⟨true, false, none, [], []⟩ (some (1 / 10))
        [⟨0, ⟨CURLE_OK, [104, 105], some CURLWS_TEXT⟩, ⟨CURLE_OK, 0⟩⟩] =
      (⟨true, false, none, [], []⟩, .msg ⟨.text, [104, 105]⟩, 1) ∧
    (recv ⟨true, false, none, [], []⟩ none []).2.1 ≠
      .rejected .receiveTimeout :=
  ⟨(recv_timeout_spec ⟨true, false, none, [], []⟩ (by decide)
      (by decide)).1 _ [],
   (recv_timeout_spec ⟨true, false, none, [], []⟩ (by decide)
      (by decide)).2.1 (1 / 10)
      ⟨0, ⟨CURLE_OK, [104, 105], some CURLWS_TEXT⟩, ⟨CURLE_OK, 0⟩⟩ []
      (by norm_num) (by decide) (by decide) (by decide),
   (recv_timeout_spec ⟨true, false, none, [], []⟩ (by decide)
      (by decide)).2.2 []⟩
